import Mathlib

/-!
Verification development for the conversation-analysis backend
(`src/ai/conversation-analyzer.js`, `src/ai/prompt-builder.js`,
`src/ai/ai-service.js`).

Strings are modelled as lists of Unicode code points (`Str := List Char`).
JavaScript `toLowerCase` is modelled on the ASCII range plus the accented
capitals that occur in French text; all dictionary entries of the source are
already lower case, so this is faithful on the inputs the code compares
against.  JavaScript numbers are modelled as `ℚ`: every score in the source
is a small integer or such an integer times 1.5 or 0.1, and the comparisons
performed on them are exact at these values.
-/

/-- Strings of the JavaScript source, as lists of code points. -/
abbrev Str := List Char

/-- Embed a Lean string literal as a `Str`. -/
def str (s : String) : Str := s.data

/-- Word characters of a JavaScript regular expression (`\w` = `[A-Za-z0-9_]`,
no Unicode flag, so accented letters are NOT word characters). -/
def isWordChar (c : Char) : Bool :=
  let n := c.toNat
  (97 ≤ n && n ≤ 122) || (65 ≤ n && n ≤ 90) || (48 ≤ n && n ≤ 57) || (n == 95)

/-- Word-character status of an optional character; out of the string counts
as a non-word character, as in JavaScript `\b` semantics. -/
def wordish : Option Char → Bool
  | none => false
  | some c => isWordChar c

/-- JavaScript `String.prototype.toLowerCase`, modelled on ASCII letters and
the accented capitals used in French. -/
def jsToLower (c : Char) : Char :=
  let n := c.toNat
  if 65 ≤ n ∧ n ≤ 90 then Char.ofNat (n + 32)
  else match c with
  | 'À' => 'à'
  | 'Â' => 'â'
  | 'Ä' => 'ä'
  | 'É' => 'é'
  | 'È' => 'è'
  | 'Ê' => 'ê'
  | 'Ë' => 'ë'
  | 'Î' => 'î'
  | 'Ï' => 'ï'
  | 'Ô' => 'ô'
  | 'Ö' => 'ö'
  | 'Ù' => 'ù'
  | 'Û' => 'û'
  | 'Ü' => 'ü'
  | 'Ç' => 'ç'
  | _ => c

/-- Lowercase a whole string (JavaScript `content.toLowerCase()`). -/
def lowerStr (s : Str) : Str := s.map jsToLower

/-- JavaScript `Array.prototype.join(' ')` over strings. -/
def joinSpace (xs : List Str) : Str := List.intercalate [' '] xs

/-- A match of the pattern `\b` ++ `w` ++ `\b` at the head of `s`, where
`prev` is the character standing directly before `s` in the scanned string:
`w` is a literal prefix of `s` and a JavaScript word boundary (word-character
status changes) holds at both ends of the occurrence. -/
def matchBounded (w : Str) (prev : Option Char) (s : Str) : Bool :=
  w.isPrefixOf s
    && (wordish prev != wordish w.head?)
    && (wordish ((s.drop w.length).head?) != wordish w.getLast?)

/-- Scan of a global regular expression `\b w \b` over the tail `s` of a
string whose character before `s` is `prev`, counting non-overlapping
matches left to right, the scan resuming after the end of each match
(JavaScript `allContent.match(regex).length` with the `g` flag).  `fuel`
bounds the recursion; callers pass the length of the string plus one. -/
def countWordFrom : Nat → Str → Option Char → Str → Nat
  | 0, _, _, _ => 0
  | _, _, _, [] => 0
  | fuel + 1, w, prev, c :: rest =>
    if matchBounded w prev (c :: rest) then
      1 + countWordFrom fuel w w.getLast? ((c :: rest).drop w.length)
    else
      countWordFrom fuel w (some c) rest

/-- Number of `\b`-bounded occurrences of the word `w` in `s`. -/
def countWord (w : Str) (s : Str) : Nat := countWordFrom (s.length + 1) w none s

/-- Boolean test of the regular expression `\b(w1|w2|...)\b` against `s`
(JavaScript `regex.test(s)`). -/
def testBoundedFrom (ws : List Str) : Option Char → Str → Bool
  | prev, [] => ws.any (fun w => matchBounded w prev [])
  | prev, c :: rest =>
    ws.any (fun w => matchBounded w prev (c :: rest)) || testBoundedFrom ws (some c) rest

/-- Whether some alternative of `ws` occurs `\b`-bounded in `s`. -/
def testBounded (ws : List Str) (s : Str) : Bool := testBoundedFrom ws none s

/-- JavaScript `s.includes(w)`: `w` occurs as a contiguous substring of `s`. -/
def strIncludes (w : Str) : Str → Bool
  | [] => w.isPrefixOf []
  | c :: rest => w.isPrefixOf (c :: rest) || strIncludes w rest

/-- Count non-overlapping literal (unbounded) occurrences of `w` in `s`,
scanning left to right (JavaScript `s.match(new RegExp(lit, 'g')).length`).
`fuel` bounds the recursion. -/
def countOccurFrom : Nat → Str → Str → Nat
  | 0, _, _ => 0
  | _, _, [] => 0
  | fuel + 1, w, c :: rest =>
    if w.isPrefixOf (c :: rest) then
      1 + countOccurFrom fuel w ((c :: rest).drop w.length)
    else
      countOccurFrom fuel w rest

/-- Number of literal occurrences of `w` in `s`. -/
def countOccur (w : Str) (s : Str) : Nat := countOccurFrom (s.length + 1) w s

/-- A message of the transcript (`{senderId, senderName, content}`). -/
structure Msg where
  senderId : Str
  senderName : Str
  content : Str
deriving DecidableEq

/-- The `tone` enumeration of the analyzer. -/
inductive Tone | formel | informel | neutre
deriving DecidableEq

/-- The `relationship` enumeration of the analyzer (with the constructor
default `inconnu`). -/
inductive Relationship | professionnel | famille | collegue | couple | ami | inconnu
deriving DecidableEq

/-- The `emotionalTone` enumeration of the analyzer. -/
inductive Emotion | positif | negatif | neutre
deriving DecidableEq

/-- The `conversationFlow` enumeration of the analyzer. -/
inductive ConvFlow | debut | interrogatif | actif | prolonge | fluide
deriving DecidableEq

/-- The `urgency` enumeration of the analyzer. -/
inductive Urgency | urgent | normal | faible
deriving DecidableEq

/-- `ConversationAnalyzer.FORMAL_INDICATORS`. -/
def FORMAL_INDICATORS : List Str :=
  [str "bonjour", str "bonsoir", str "merci", str "cordialement", str "sincèrement",
   str "pourriez", str "veuillez", str "je vous prie", str "permettez", str "monsieur",
   str "madame", str "respectueusement", str "bien à vous", str "salutations"]

/-- `ConversationAnalyzer.INFORMAL_INDICATORS`. -/
def INFORMAL_INDICATORS : List Str :=
  [str "salut", str "coucou", str "ouais", str "cool", str "lol", str "mdr", str "ptdr",
   str "tkt", str "jsp", str "wsh", str "bg", str "oklm", str "yo", str "hey", str "cc",
   str "tranquille", str "grave", str "trop", str "genre", str "quoi", str "nan"]

/-- `ConversationAnalyzer.POSITIVE_INDICATORS`. -/
def POSITIVE_INDICATORS : List Str :=
  [str "content", str "super", str "génial", str "cool", str "parfait", str "merci",
   str "top", str "excellent", str "bravo", str "magnifique", str "incroyable",
   str "heureux", str "ravi", str "adorable", str "formidable", str "chouette"]

/-- `ConversationAnalyzer.NEGATIVE_INDICATORS`. -/
def NEGATIVE_INDICATORS : List Str :=
  [str "désolé", str "dommage", str "problème", str "malheureusement", str "triste",
   str "inquiet", str "stressé", str "difficile", str "compliqué", str "ennuyeux",
   str "frustrant", str "décevant", str "mauvais", str "terrible", str "horrible"]

/-- `ConversationAnalyzer.POSITIVE_EMOJIS`. -/
def POSITIVE_EMOJIS : List Str :=
  [str "😊", str "😂", str "😄", str "😃", str "🙂", str "❤️", str "💕", str "👍",
   str "🎉", str "✨", str "🥳", str "😁", str "🤗", str "💪", str "👏"]

/-- `ConversationAnalyzer.NEGATIVE_EMOJIS`. -/
def NEGATIVE_EMOJIS : List Str :=
  [str "😢", str "😔", str "😡", str "💔", str "😤", str "😞", str "😟", str "😰",
   str "😭", str "🙁", str "😕", str "😣"]

/-- `ConversationAnalyzer.TOPIC_KEYWORDS`, in declaration order. -/
def TOPIC_KEYWORDS : List (Str × List Str) :=
  [(str "travail",
    [str "travail", str "projet", str "réunion", str "bureau", str "chef",
     str "collègue", str "deadline", str "meeting", str "boss", str "boulot", str "job"]),
   (str "rendez-vous",
    [str "rdv", str "rendez-vous", str "voir", str "rencontrer", str "heure",
     str "demain", str "ce soir", str "samedi", str "dimanche", str "week-end"]),
   (str "loisirs",
    [str "film", str "série", str "jeu", str "sport", str "musique", str "concert",
     str "soirée", str "sortie", str "resto", str "bar"]),
   (str "nourriture",
    [str "manger", str "restaurant", str "bouffe", str "dîner", str "déjeuner",
     str "petit-dej", str "café", str "boire", str "faim"]),
   (str "voyage",
    [str "voyage", str "vacances", str "partir", str "destination", str "avion",
     str "train", str "hôtel", str "plage", str "montagne"]),
   (str "famille",
    [str "famille", str "parents", str "maman", str "papa", str "frère",
     str "soeur", str "enfants", str "bébé", str "mariage"]),
   (str "santé",
    [str "santé", str "médecin", str "malade", str "hôpital", str "docteur",
     str "fatigue", str "repos", str "dormir"]),
   (str "argent",
    [str "argent", str "payer", str "prix", str "cher", str "budget",
     str "économies", str "acheter", str "vendre"])]

/-- `ConversationAnalyzer.URGENCY_INDICATORS.high`. -/
def URGENCY_HIGH : List Str :=
  [str "urgent", str "vite", str "rapidement", str "asap", str "immédiatement",
   str "maintenant", str "tout de suite", str "dépêche"]

/-- `ConversationAnalyzer.URGENCY_INDICATORS.low`. -/
def URGENCY_LOW : List Str :=
  [str "quand tu peux", str "pas pressé", str "tranquille", str "à l'occasion", str "un jour"]

/-- The lowercased transcript joined by spaces
(`messages.map((m) => m.content.toLowerCase()).join(' ')`). -/
def allLower (messages : List Msg) : Str :=
  joinSpace (messages.map (fun m => lowerStr m.content))

/-- Raw (unweighted) total of `\b`-bounded formal-indicator matches over the
joined lowercase transcript: the value accumulated into `formalScore` in
`detectTone` before any weighting. -/
def rawFormalMatches (messages : List Msg) : Nat :=
  (FORMAL_INDICATORS.map (fun w => countWord w (allLower messages))).sum

/-- Raw (unweighted) total of `\b`-bounded informal-indicator matches over
the joined lowercase transcript; `detectTone` accumulates 1.5 times this
value into `informalScore`. -/
def rawInformalMatches (messages : List Msg) : Nat :=
  (INFORMAL_INDICATORS.map (fun w => countWord w (allLower messages))).sum

/-- `ConversationAnalyzer.detectTone`: formal and informal word-boundary
matches are counted over the joined lowercase transcript, informal matches
weighted 1.5; formal wins when `formalScore > informalScore * 2`, informal
when `informalScore > formalScore`, otherwise neutral. -/
def detectTone (messages : List Msg) : Tone :=
  let formalScore : ℚ := (rawFormalMatches messages : ℚ)
  let informalScore : ℚ := (rawInformalMatches messages : ℚ) * (3 / 2)
  if formalScore > informalScore * 2 then Tone.formel
  else if informalScore > formalScore then Tone.informel
  else Tone.neutre

/-- `ConversationAnalyzer.detectRelationship`: a formal tone forces
`professionnel`; otherwise ordered `\b`-bounded keyword groups are tried
(professional roles, family, work context, pet names), defaulting to `ami`.
The source alternative `parents?` is expanded into the two literal
alternatives `parents` and `parent`. -/
def detectRelationship (messages : List Msg) (tone : Tone) : Relationship :=
  let content := allLower messages
  if tone = Tone.formel then Relationship.professionnel
  else if testBounded [str "patron", str "chef", str "manager", str "directeur", str "client"] content then
    Relationship.professionnel
  else if testBounded [str "maman", str "papa", str "famille", str "parents", str "parent", str "frère", str "soeur"] content then
    Relationship.famille
  else if testBounded [str "collègue", str "bureau", str "travail", str "réunion", str "projet"] content then
    Relationship.collegue
  else if testBounded [str "chéri", str "bébé", str "mon amour", str "ma puce", str "mon coeur"] content then
    Relationship.couple
  else Relationship.ami

/-- The topic tags whose keyword lists have a substring hit in the joined
lowercase transcript, in the declaration order of `TOPIC_KEYWORDS`. -/
def topicMatches (messages : List Msg) : List Str :=
  TOPIC_KEYWORDS.filterMap
    (fun p => if p.2.any (fun keyword => strIncludes keyword (allLower messages)) then some p.1 else none)

/-- `ConversationAnalyzer.extractTopics`: collect matching topic tags in
declaration order, with the singleton `discussion generale` fallback. -/
def extractTopics (messages : List Msg) : List Str :=
  let topics := topicMatches messages
  if topics.isEmpty then [str "discussion generale"] else topics

/-- The raw transcript joined by spaces (`messages.map((m) => m.content).join(' ')`). -/
def allContentJoined (messages : List Msg) : Str :=
  joinSpace (messages.map (fun m => m.content))

/-- Number of dictionary entries that occur (at least once, as substrings)
in the text: the word loops of `detectEmotionalTone`, which add 1 per
dictionary word whose `includes` test is true. -/
def wordHitCount (dict : List Str) (contentLower : Str) : Nat :=
  dict.countP (fun w => strIncludes w contentLower)

/-- Total number of occurrences of the dictionary emojis in the text
(the emoji loops of `detectEmotionalTone`, before the factor 2). -/
def emojiOccurrences (dict : List Str) (allContent : Str) : Nat :=
  (dict.map (fun e => countOccur e allContent)).sum

/-- Number of exclamation marks in the text (`allContent.match(/!/g)`). -/
def exclamationCount (allContent : Str) : Nat := allContent.count '!'

/-- The `positiveScore` accumulated by `ConversationAnalyzer.detectEmotionalTone`:
one per positive dictionary word present, two per positive emoji occurrence,
plus at most three exclamation marks. -/
def positiveScoreN (messages : List Msg) : Nat :=
  wordHitCount POSITIVE_INDICATORS (lowerStr (allContentJoined messages))
    + 2 * emojiOccurrences POSITIVE_EMOJIS (allContentJoined messages)
    + min (exclamationCount (allContentJoined messages)) 3

/-- The `negativeScore` accumulated by `ConversationAnalyzer.detectEmotionalTone`:
one per negative dictionary word present plus two per negative emoji occurrence. -/
def negativeScoreN (messages : List Msg) : Nat :=
  wordHitCount NEGATIVE_INDICATORS (lowerStr (allContentJoined messages))
    + 2 * emojiOccurrences NEGATIVE_EMOJIS (allContentJoined messages)

/-- `ConversationAnalyzer.detectEmotionalTone`: positive when
`positiveScore > negativeScore * 1.5`, negative when
`negativeScore > positiveScore`, otherwise neutral. -/
def detectEmotionalTone (messages : List Msg) : Emotion :=
  if (positiveScoreN messages : ℚ) > (negativeScoreN messages : ℚ) * (3 / 2) then Emotion.positif
  else if (negativeScoreN messages : ℚ) > (positiveScoreN messages : ℚ) then Emotion.negatif
  else Emotion.neutre

/-- `ConversationAnalyzer.analyzeConversationFlow`: `debut` below two
messages; over the last five messages, two questions make it
`interrogatif`, three own messages `actif`, more than twenty messages in
total `prolonge`, else `fluide`. -/
def analyzeConversationFlow (messages : List Msg) (currentUserId : Str) : ConvFlow :=
  if messages.length < 2 then ConvFlow.debut
  else
    let recentMessages := messages.drop (messages.length - 5)
    let questionCount := recentMessages.countP (fun m => m.content.contains '?')
    let myMessages := recentMessages.countP (fun m => m.senderId == currentUserId)
    if questionCount ≥ 2 then ConvFlow.interrogatif
    else if myMessages ≥ 3 then ConvFlow.actif
    else if messages.length > 20 then ConvFlow.prolonge
    else ConvFlow.fluide

/-- `ConversationAnalyzer.createConversationSummary`: a length bucket, the
first two non-sentinel topics, then a clause for the last message of the
other party — the awaiting-reply clause when that message CONTAINS a
question mark anywhere (`includes('?')`), else the enthusiastic clause when
it ends with an exclamation mark. -/
def createConversationSummary (messages : List Msg) (currentUserId : Str) (topics : List Str) : Str :=
  if messages.length = 0 then str "Nouvelle conversation"
  else
    let otherMessages := messages.filter (fun m => m.senderId != currentUserId)
    let base :=
      if messages.length ≤ 3 then str "Debut de conversation"
      else if messages.length ≤ 10 then str "Conversation en cours"
      else if messages.length ≤ 30 then str "Discussion active"
      else str "Longue discussion"
    let withTopics :=
      if 0 < topics.length ∧ topics.head? ≠ some (str "discussion generale") then
        base ++ str " portant sur " ++ List.intercalate (str " et ") (topics.take 2)
      else base
    match otherMessages.getLast? with
    | none => withTopics
    | some lastOther =>
      if lastOther.content.contains '?' then withTopics ++ str ". Question en attente de reponse"
      else if lastOther.content.getLast? == some '!' then withTopics ++ str ". Message enthousiaste recu"
      else withTopics

/-- `ConversationAnalyzer.detectUrgency`: substring scan of the last three
lowercased messages, high-urgency keywords first, then low-urgency ones. -/
def detectUrgency (messages : List Msg) : Urgency :=
  let recentContent := joinSpace ((messages.drop (messages.length - 3)).map (fun m => lowerStr m.content))
  if URGENCY_HIGH.any (fun w => strIncludes w recentContent) then Urgency.urgent
  else if URGENCY_LOW.any (fun w => strIncludes w recentContent) then Urgency.faible
  else Urgency.normal

/-- `ConversationAnalyzer.calculateFormality`: distinct-dictionary-entry
substring hits, `formal / (formal + informal)`, `0.5` when both are zero. -/
def calculateFormality (messages : List Msg) : ℚ :=
  let content := allLower messages
  let formalScore := FORMAL_INDICATORS.countP (fun w => strIncludes w content)
  let informalScore := INFORMAL_INDICATORS.countP (fun w => strIncludes w content)
  if formalScore + informalScore = 0 then 1 / 2
  else (formalScore : ℚ) / ((formalScore + informalScore : Nat) : ℚ)

/-- The `type` field of `ConversationAnalyzer.analyzeExpectedResponse`. -/
inductive RType
  | temporelle | lieu | explicative | proposition | ouverte | exclamation | validation | affirmation
deriving DecidableEq

/-- The record returned by `ConversationAnalyzer.analyzeExpectedResponse`. -/
structure ExpectedResponse where
  rtype : RType
  description : Str
deriving DecidableEq

/-- `ConversationAnalyzer.analyzeExpectedResponse`: a question mark anywhere
selects the question branch, sub-classified by `\b`-bounded interrogative
groups (first match wins) with `ouverte` as the default; else a trailing
exclamation mark gives `exclamation`; else an affirmation token gives
`validation`; else `affirmation`. -/
def analyzeExpectedResponse (message : Str) : ExpectedResponse :=
  let lower := lowerStr message
  if message.contains '?' then
    if testBounded [str "quand", str "quelle heure", str "à quelle"] lower then
      ⟨RType.temporelle, str "Question temporelle - necessite une date/heure"⟩
    else if testBounded [str "où", str "quel endroit", str "quel lieu"] lower then
      ⟨RType.lieu, str "Question de lieu - necessite une localisation"⟩
    else if testBounded [str "comment", str "pourquoi", str "explique"] lower then
      ⟨RType.explicative, str "Question explicative - necessite des details"⟩
    else if testBounded [str "tu veux", str "on fait", str "ça te dit"] lower then
      ⟨RType.proposition, str "Proposition - necessite acceptation/refus"⟩
    else ⟨RType.ouverte, str "Question ouverte - necessite une reponse informative"⟩
  else if message.getLast? == some '!' then
    ⟨RType.exclamation, str "Exclamation - reaction enthousiaste possible"⟩
  else if testBounded [str "ok", str "d'accord", str "parfait", str "super", str "bien"] lower then
    ⟨RType.validation, str "Validation - peut clore le sujet ou continuer"⟩
  else ⟨RType.affirmation, str "Affirmation - reponse contextuelle appropriee"⟩

/-- The `ConversationAnalysis` record; the field defaults are the
constructor defaults of the source (`'neutre'`, `'inconnu'`, `[]`, `''`,
`0`, `''`, `'debut'`, `'neutre'`, `'normal'`, `0.5`). -/
structure ConversationAnalysis where
  tone : Tone := Tone.neutre
  relationship : Relationship := Relationship.inconnu
  topics : List Str := []
  conversationSummary : Str := []
  messageCount : Nat := 0
  lastSpeaker : Str := []
  conversationFlow : ConvFlow := ConvFlow.debut
  emotionalTone : Emotion := Emotion.neutre
  urgency : Urgency := Urgency.normal
  formality : ℚ := 1 / 2
deriving DecidableEq

/-- `ConversationAnalyzer.analyze` on well-formed input (every `content` a
string): the empty transcript returns the default analysis with the
new-conversation summary; otherwise the record is assembled from the
sub-signals.  On well-formed input no sub-signal can throw, so the
try/catch of the source is invisible here; `analyzeJS` models it. -/
def analyze (messages : List Msg) (currentUserId currentUserName : Str) : ConversationAnalysis :=
  if messages.isEmpty then
    { conversationSummary := str "Nouvelle conversation" }
  else
    let tone := detectTone messages
    let topics := extractTopics messages
    let lastMessage := messages.getLastD ⟨[], [], []⟩
    { tone := tone
      relationship := detectRelationship messages tone
      topics := topics
      conversationSummary := createConversationSummary messages currentUserId topics
      messageCount := messages.length
      lastSpeaker := if lastMessage.senderId == currentUserId then str "moi" else lastMessage.senderName
      conversationFlow := analyzeConversationFlow messages currentUserId
      emotionalTone := detectEmotionalTone messages
      urgency := detectUrgency messages
      formality := calculateFormality messages }

/-- A message as the JavaScript runtime sees it: `content` is `none` when
the field holds a non-string value, on which `content.toLowerCase()` throws. -/
structure MsgJ where
  senderId : Str
  senderName : Str
  content : Option Str
deriving DecidableEq

/-- A `MsgJ` whose content is a string, as a well-formed message. -/
def toMsg (m : MsgJ) : Option Msg :=
  m.content.map (fun c => (⟨m.senderId, m.senderName, c⟩ : Msg))

/-- All messages as well-formed ones; `none` as soon as one content is not
a string (the first `toLowerCase` call that would throw). -/
def toMsgList : List MsgJ → Option (List Msg)
  | [] => some []
  | m :: rest =>
    match toMsg m, toMsgList rest with
    | some a, some as => some (a :: as)
    | _, _ => none

/-- `ConversationAnalyzer.analyze` at the JavaScript level: a `null` or
empty message list takes the early default branch; otherwise the try block
runs — the first sub-signal (`detectTone`) lowercases every content, so a
non-string content throws there and the catch returns the all-defaults
`new ConversationAnalysis()`. -/
def analyzeJS (messages : Option (List MsgJ)) (currentUserId currentUserName : Str) :
    ConversationAnalysis :=
  match messages with
  | none => { conversationSummary := str "Nouvelle conversation" }
  | some msgs =>
    if msgs.isEmpty then { conversationSummary := str "Nouvelle conversation" }
    else
      match toMsgList msgs with
      | some ms => analyze ms currentUserId currentUserName
      | none => {}

/-- Decimal rendering of a count interpolated into a template literal. -/
def natStr (n : Nat) : Str := (Nat.repr n).data

/-- One rendered transcript line of `PromptBuilder.buildStructuredContext`:
`${i + 1}. ${prefix}: "${msg.content}"` with the `[MOI]`/name prefix rule. -/
def renderLine (currentUserId currentUserName : Str) (i : Nat) (msg : Msg) : Str :=
  let pfx := if msg.senderId == currentUserId then str "[MOI] " ++ currentUserName else msg.senderName
  natStr (i + 1) ++ str ". " ++ pfx ++ str ": \"" ++ msg.content ++ str "\""

/-- The verbatim rendering of a block of messages, numbered from 1. -/
def renderNumbered (messages : List Msg) (currentUserId currentUserName : Str) : List Str :=
  messages.mapIdx (fun i msg => renderLine currentUserId currentUserName i msg)

/-- The four header lines summarizing the collapsed old messages in
`PromptBuilder.buildStructuredContext` (counts per sender, with the
`'Contact'` fallback when no other-party message or an empty sender name
is found — `||` on a falsy empty string). -/
def summaryBlock (oldMessages : List Msg) (currentUserId : Str) : List Str :=
  let myCount := (oldMessages.filter (fun m => m.senderId == currentUserId)).length
  let otherCount := oldMessages.length - myCount
  let otherName :=
    match oldMessages.find? (fun m => m.senderId != currentUserId) with
    | some m => if m.senderName == ([] : Str) then str "Contact" else m.senderName
    | none => str "Contact"
  [str "[DEBUT DE CONVERSATION - " ++ natStr oldMessages.length ++ str " messages]",
   str "Resume: " ++ natStr myCount ++ str " messages de moi, " ++ natStr otherCount ++ str " de " ++ otherName,
   ([] : Str),
   str "[MESSAGES RECENTS]"]

/-- The `lines` array built by `PromptBuilder.buildStructuredContext` for a
non-empty transcript: above eight messages, the summary block of all but
the last six followed by the last six rendered verbatim; otherwise every
message rendered verbatim. -/
def buildStructuredContextLines (messages : List Msg) (currentUserId currentUserName : Str) :
    List Str :=
  if messages.length > 8 then
    summaryBlock (messages.take (messages.length - 6)) currentUserId
      ++ renderNumbered (messages.drop (messages.length - 6)) currentUserId currentUserName
  else
    renderNumbered messages currentUserId currentUserName

/-- `PromptBuilder.buildStructuredContext`: the placeholder for an empty
transcript, else the rendered lines joined by newlines. -/
def buildStructuredContext (messages : List Msg) (currentUserId currentUserName : Str) : Str :=
  if messages.isEmpty then str "[Aucun message precedent - Nouvelle conversation]"
  else List.intercalate (str "\n") (buildStructuredContextLines messages currentUserId currentUserName)

/-- The mutable `config.ai` object shared by every attempt of
`AIService.generateMultipleSuggestions`. -/
structure AIConfig where
  model : Str
  maxTokens : Nat
  temperature : ℚ
deriving DecidableEq

/-- The attempt loop of `AIService.generateMultipleSuggestions`, with the
provider abstracted as the per-attempt outcome list: iteration `i` reads
`originalTemp`, raises the shared temperature to
`min 1 (originalTemp + i * 0.1)`, runs the attempt, pushes the suggestion
and restores the temperature on success, and on failure only logs — the
restore line is skipped, so the raised temperature persists into the next
iteration. -/
def runAttempts : List (Except Unit Str) → Nat → AIConfig → List Str × AIConfig
  | [], _, cfg => ([], cfg)
  | attempt :: rest, i, cfg =>
    let originalTemp := cfg.temperature
    let raised := { cfg with temperature := min 1 (originalTemp + (i : ℚ) * (1 / 10)) }
    match attempt with
    | Except.ok s =>
      let r := runAttempts rest (i + 1) { raised with temperature := originalTemp }
      (s :: r.1, r.2)
    | Except.error _ =>
      let r := runAttempts rest (i + 1) raised
      (r.1, r.2)

/-- First-occurrence deduplication with an explicit seen set: the insertion
behavior of `new Set(suggestions)`, whose iteration order is insertion
order. -/
def setDedupGo (seen : List Str) : List Str → List Str
  | [] => []
  | x :: xs => if seen.contains x then setDedupGo seen xs else x :: setDedupGo (x :: seen) xs

/-- JavaScript `[...new Set(suggestions)]`. -/
def setDedup (l : List Str) : List Str := setDedupGo [] l

/-- The successful suggestion texts of an attempt list, in attempt order. -/
def successes (attempts : List (Except Unit Str)) : List Str :=
  attempts.filterMap Except.toOption

/-- `AIService.generateMultipleSuggestions` over the abstracted provider:
run the attempts against the shared config, then deduplicate the collected
suggestions. -/
def generateMultipleSuggestions (attempts : List (Except Unit Str)) (cfg : AIConfig) :
    List Str × AIConfig :=
  let r := runAttempts attempts 0 cfg
  (setDedup r.1, r.2)

/-- Specification-shaped first-occurrence deduplication: keep the head,
drop its later duplicates, recurse. -/
def specDedup : List Str → List Str
  | [] => []
  | x :: xs => x :: specDedup (xs.filter (fun y => y != x))
termination_by l => l.length
decreasing_by
  simp only [List.length_cons]
  have := List.length_filter_le (fun y => y != x) xs
  omega

/-- Modelled from the claim wording of C3, for refinement comparison only:
emotional-tone scoring in which an indicator WORD occurring k times
contributes k to the score (per-occurrence counting instead of the
presence test of the source); emojis and exclamation marks as in the
source. -/
def positiveScoreClaimN (messages : List Msg) : Nat :=
  (POSITIVE_INDICATORS.map (fun w => countOccur w (lowerStr (allContentJoined messages)))).sum
    + 2 * emojiOccurrences POSITIVE_EMOJIS (allContentJoined messages)
    + min (exclamationCount (allContentJoined messages)) 3

/-- Negative counterpart of `positiveScoreClaimN` (claim-shaped scoring). -/
def negativeScoreClaimN (messages : List Msg) : Nat :=
  (NEGATIVE_INDICATORS.map (fun w => countOccur w (lowerStr (allContentJoined messages)))).sum
    + 2 * emojiOccurrences NEGATIVE_EMOJIS (allContentJoined messages)

/-- Emotional-tone detection as claim C3 words it (word occurrences counted
with multiplicity), with the thresholds of the source. -/
def detectEmotionalToneClaim (messages : List Msg) : Emotion :=
  if (positiveScoreClaimN messages : ℚ) > (negativeScoreClaimN messages : ℚ) * (3 / 2) then
    Emotion.positif
  else if (negativeScoreClaimN messages : ℚ) > (positiveScoreClaimN messages : ℚ) then
    Emotion.negatif
  else Emotion.neutre

/-- The message-count bucket opening the conversation summary. -/
def summaryBase (n : Nat) : Str :=
  if n ≤ 3 then str "Debut de conversation"
  else if n ≤ 10 then str "Conversation en cours"
  else if n ≤ 30 then str "Discussion active"
  else str "Longue discussion"

/-- The topic clause of the conversation summary: the first two topics when
present and not the sentinel, empty otherwise. -/
def topicsClause (topics : List Str) : Str :=
  if 0 < topics.length ∧ topics.head? ≠ some (str "discussion generale") then
    str " portant sur " ++ List.intercalate (str " et ") (topics.take 2)
  else []

/-- The most recent message not authored by the current user. -/
def lastOtherMessage (messages : List Msg) (currentUserId : Str) : Option Msg :=
  (messages.filter (fun m => m.senderId != currentUserId)).getLast?

/-- The clause appended at the end of the conversation summary: the
awaiting-reply clause when the last other-party message CONTAINS a question
mark anywhere, else the enthusiastic clause when it ends with an
exclamation mark, else nothing. -/
def trailingClause (messages : List Msg) (currentUserId : Str) : Str :=
  match lastOtherMessage messages currentUserId with
  | none => []
  | some m =>
    if m.content.contains '?' then str ". Question en attente de reponse"
    else if m.content.getLast? == some '!' then str ". Message enthousiaste recu"
    else []

/-- Unfolded form of `detectTone` with the two rational comparisons explicit. -/
theorem detectTone_eq (messages : List Msg) :
    detectTone messages =
      (if (rawFormalMatches messages : ℚ) > ((rawInformalMatches messages : ℚ) * (3 / 2)) * 2 then
        Tone.formel
       else if (rawInformalMatches messages : ℚ) * (3 / 2) > (rawFormalMatches messages : ℚ) then
        Tone.informel
       else Tone.neutre) := rfl

/-- Unfolded form of `analyze` on a non-empty transcript. -/
theorem analyze_eq_of_ne_nil (messages : List Msg) (currentUserId currentUserName : Str)
    (h : messages ≠ []) :
    analyze messages currentUserId currentUserName =
      { tone := detectTone messages
        relationship := detectRelationship messages (detectTone messages)
        topics := extractTopics messages
        conversationSummary := createConversationSummary messages currentUserId (extractTopics messages)
        messageCount := messages.length
        lastSpeaker :=
          if (messages.getLastD ⟨[], [], []⟩).senderId == currentUserId then str "moi"
          else (messages.getLastD ⟨[], [], []⟩).senderName
        conversationFlow := analyzeConversationFlow messages currentUserId
        emotionalTone := detectEmotionalTone messages
        urgency := detectUrgency messages
        formality := calculateFormality messages } := by
  unfold analyze
  rw [if_neg]
  simp [List.isEmpty_iff, h]

/-- Claim C1, counterexample: a transcript with EQUAL raw formal and
informal match counts — both zero — on which `detectTone` returns
`neutre`, not `informel`, refuting the claim as universally stated. -/
theorem claim1_counterexample :
    rawFormalMatches [⟨str "a1", str "Alice", str "xyz"⟩]
        = rawInformalMatches [⟨str "a1", str "Alice", str "xyz"⟩]
      ∧ detectTone [⟨str "a1", str "Alice", str "xyz"⟩] = Tone.neutre := by
  constructor
  · decide
  · rw [detectTone_eq]
    rw [show rawFormalMatches [⟨str "a1", str "Alice", str "xyz"⟩] = 0 from by decide]
    rw [show rawInformalMatches [⟨str "a1", str "Alice", str "xyz"⟩] = 0 from by decide]
    norm_num

/-- Claim C1, amended: for every transcript whose raw (unweighted) count of
formal-indicator matches equals the raw count of informal-indicator matches
and is POSITIVE, `detectTone` returns `informel` (the 1.5 informal weight
breaks the tie); with both counts zero it returns `neutre`. -/
theorem claim1_equal_positive_counts_informal (messages : List Msg)
    (h : rawFormalMatches messages = rawInformalMatches messages)
    (hpos : 0 < rawFormalMatches messages) :
    detectTone messages = Tone.informel := by
  rw [h] at hpos
  have hn : (1 : ℚ) ≤ (rawInformalMatches messages : ℚ) := Nat.one_le_cast.mpr hpos
  rw [detectTone_eq, h]
  generalize hq : (rawInformalMatches messages : ℚ) = q at hn ⊢
  clear h hpos hq
  rw [if_neg (by nlinarith), if_pos (by nlinarith)]

/-- Witness for the amended C1 theorem at the transcript `"bonjour salut"`,
which has one formal and one informal raw match. -/
theorem claim1_equal_positive_counts_informal_witness :
    detectTone [⟨str "a1", str "Alice", str "bonjour salut"⟩] = Tone.informel :=
  claim1_equal_positive_counts_informal [⟨str "a1", str "Alice", str "bonjour salut"⟩]
    (by decide) (by decide)

/-- Claim C2, counterexample: for the EMPTY message list, `analyze` takes
the default branch whose `topics` field is the empty list — the `topics`
field is not non-empty for every input. -/
theorem claim2_counterexample :
    (analyze [] (str "u1") (str "Utilisateur")).topics = ([] : List Str) := by decide

/-- Claim C2, amended: for every NON-EMPTY message list, the context
returned by `analyze` carries the topics of `extractTopics`, which are
never empty and are either the matched topic tags in dictionary declaration
order or the singleton general sentinel; the empty list takes the default
branch with empty `topics`. -/
theorem claim2_topics_nonempty (messages : List Msg) (uid uname : Str) (h : messages ≠ []) :
    (analyze messages uid uname).topics = extractTopics messages
      ∧ extractTopics messages ≠ []
      ∧ (extractTopics messages = topicMatches messages
          ∨ extractTopics messages = [str "discussion generale"]) := by
  have he : extractTopics messages
      = (if (topicMatches messages).isEmpty then [str "discussion generale"]
         else topicMatches messages) := rfl
  refine ⟨?_, ?_, ?_⟩
  · rw [analyze_eq_of_ne_nil messages uid uname h]
  · rw [he]
    split_ifs with hi
    · simp
    · simpa [List.isEmpty_iff] using hi
  · rw [he]
    split_ifs with hi
    · exact Or.inr rfl
    · exact Or.inl rfl

/-- Witness for the amended C2 theorem at a one-message transcript. -/
theorem claim2_topics_nonempty_witness :
    (analyze [⟨str "a1", str "Alice", str "Tu viens ? Je pars."⟩] (str "me") (str "Moi")).topics
        = extractTopics [⟨str "a1", str "Alice", str "Tu viens ? Je pars."⟩]
      ∧ extractTopics [⟨str "a1", str "Alice", str "Tu viens ? Je pars."⟩] ≠ []
      ∧ (extractTopics [⟨str "a1", str "Alice", str "Tu viens ? Je pars."⟩]
            = topicMatches [⟨str "a1", str "Alice", str "Tu viens ? Je pars."⟩]
          ∨ extractTopics [⟨str "a1", str "Alice", str "Tu viens ? Je pars."⟩]
            = [str "discussion generale"]) :=
  claim2_topics_nonempty [⟨str "a1", str "Alice", str "Tu viens ? Je pars."⟩]
    (str "me") (str "Moi") (by decide)

/-- Claim C3, counterexample: in the transcript `"super super triste"` the
positive word `super` occurs twice but contributes only once — the source
tests word PRESENCE (`includes`), not occurrence count — so the code
returns `neutre` while the claim-shaped per-occurrence scoring would
return `positif`. -/
theorem claim3_counterexample :
    detectEmotionalTone [⟨str "a1", str "Alice", str "super super triste"⟩] = Emotion.neutre
      ∧ detectEmotionalToneClaim [⟨str "a1", str "Alice", str "super super triste"⟩]
          = Emotion.positif := by
  constructor
  · unfold detectEmotionalTone
    rw [show positiveScoreN [⟨str "a1", str "Alice", str "super super triste"⟩] = 1 from by decide]
    rw [show negativeScoreN [⟨str "a1", str "Alice", str "super super triste"⟩] = 1 from by decide]
    norm_num
  · unfold detectEmotionalToneClaim
    rw [show positiveScoreClaimN [⟨str "a1", str "Alice", str "super super triste"⟩] = 2 from by
      decide]
    rw [show negativeScoreClaimN [⟨str "a1", str "Alice", str "super super triste"⟩] = 1 from by
      decide]
    norm_num

/-- Claim C3, amended: an indicator word contributes 1 when present at all
(word hits are deduplicated per dictionary entry, regardless of how often
the word occurs), emoji occurrences contribute 2 each, positive gains
`min(exclamation count, 3)`; the result is positive iff
`positiveScore > 1.5 * negativeScore` (equivalently `3N < 2P` over the
integer scores), negative iff not positive and `negativeScore >
positiveScore`, else neutral. -/
theorem claim3_emotional_scoring (messages : List Msg) :
    detectEmotionalTone messages =
      (if 3 * negativeScoreN messages < 2 * positiveScoreN messages then Emotion.positif
       else if positiveScoreN messages < negativeScoreN messages then Emotion.negatif
       else Emotion.neutre) := by
  unfold detectEmotionalTone
  generalize (positiveScoreN messages) = P
  generalize (negativeScoreN messages) = N
  have h1 : ((P : ℚ) > (N : ℚ) * (3 / 2)) ↔ 3 * N < 2 * P := by
    rw [gt_iff_lt]
    rw [show ((N : ℚ) * (3 / 2) < (P : ℚ)) ↔ ((3 * N : ℚ) < (2 * P : ℚ)) from by
      constructor <;> intro hh <;> nlinarith]
    exact_mod_cast Iff.rfl
  have h2 : ((N : ℚ) > (P : ℚ)) ↔ P < N := by
    rw [gt_iff_lt]; exact_mod_cast Iff.rfl
  simp only [h1, h2]

/-- Claim C4, counterexample: for the message
`"Bonjour, pourriez-vous m'envoyer le rapport ?"` the expected-response
classifier returns `ouverte` (open) — none of the interrogative dictionaries
contains `pourriez-vous` — contradicting the claim that the kind is
explanatory or proposal and never open. -/
theorem claim4_counterexample :
    (analyzeExpectedResponse (str "Bonjour, pourriez-vous m'envoyer le rapport ?")).rtype
      = RType.ouverte := by decide

/-- Claim C4, amended: for the single-message transcript
`[{Colleague, "Bonjour, pourriez-vous m'envoyer le rapport ?"}]` with the
current user as addressee, classification yields a formal tone and a
professional relationship, and the expected-response kind of that message
is `ouverte` (open). -/
theorem claim4_formal_scenario :
    (analyze [⟨str "c1", str "Collegue", str "Bonjour, pourriez-vous m'envoyer le rapport ?"⟩]
        (str "u1") (str "Utilisateur")).tone = Tone.formel
      ∧ (analyze [⟨str "c1", str "Collegue", str "Bonjour, pourriez-vous m'envoyer le rapport ?"⟩]
          (str "u1") (str "Utilisateur")).relationship = Relationship.professionnel
      ∧ (analyzeExpectedResponse (str "Bonjour, pourriez-vous m'envoyer le rapport ?")).rtype
          = RType.ouverte := by
  have htone :
      detectTone [⟨str "c1", str "Collegue", str "Bonjour, pourriez-vous m'envoyer le rapport ?"⟩]
        = Tone.formel := by
    rw [detectTone_eq]
    rw [show rawFormalMatches
        [⟨str "c1", str "Collegue", str "Bonjour, pourriez-vous m'envoyer le rapport ?"⟩] = 2 from
      by decide]
    rw [show rawInformalMatches
        [⟨str "c1", str "Collegue", str "Bonjour, pourriez-vous m'envoyer le rapport ?"⟩] = 0 from
      by decide]
    norm_num
  refine ⟨?_, ?_, by decide⟩
  · rw [analyze_eq_of_ne_nil _ _ _ (by decide)]
    exact htone
  · rw [analyze_eq_of_ne_nil _ _ _ (by decide)]
    show detectRelationship
        [⟨str "c1", str "Collegue", str "Bonjour, pourriez-vous m'envoyer le rapport ?"⟩]
        (detectTone
          [⟨str "c1", str "Collegue", str "Bonjour, pourriez-vous m'envoyer le rapport ?"⟩])
      = Relationship.professionnel
    rw [htone]
    unfold detectRelationship
    rw [if_pos rfl]

/-- Unfolded form of `createConversationSummary` on a non-empty transcript,
phrased with `summaryBase` and `lastOtherMessage`. -/
theorem createConversationSummary_eq (messages : List Msg) (uid : Str) (topics : List Str)
    (h : messages.length ≠ 0) :
    createConversationSummary messages uid topics =
      (let withTopics :=
        if 0 < topics.length ∧ topics.head? ≠ some (str "discussion generale") then
          summaryBase messages.length ++ str " portant sur "
            ++ List.intercalate (str " et ") (topics.take 2)
        else summaryBase messages.length
       match lastOtherMessage messages uid with
       | none => withTopics
       | some lastOther =>
         if lastOther.content.contains '?' then
           withTopics ++ str ". Question en attente de reponse"
         else if lastOther.content.getLast? == some '!' then
           withTopics ++ str ". Message enthousiaste recu"
         else withTopics) := by
  unfold createConversationSummary
  rw [if_neg h]
  rfl

/-- Claim C5, counterexample: the other party's last message
`"Tu viens ? Je pars."` does NOT end in a question mark, yet the summary
carries the awaiting-reply clause, because the source tests
`includes('?')`, not a trailing question mark. -/
theorem claim5_counterexample :
    (str "Tu viens ? Je pars.").getLast? ≠ some '?'
      ∧ createConversationSummary [⟨str "a1", str "Alice", str "Tu viens ? Je pars."⟩] (str "me")
          (extractTopics [⟨str "a1", str "Alice", str "Tu viens ? Je pars."⟩])
        = str "Debut de conversation. Question en attente de reponse" := by
  constructor
  · decide
  · decide

/-- Claim C5, amended: the summary of a non-empty transcript is the length
bucket, the topic clause, and a trailing clause chosen by whether the most
recent other-party message CONTAINS `?` anywhere (awaiting-reply clause)
or else ends in `!` (enthusiastic clause); when that message contains no
`?` at all, the appended clause is never the awaiting-reply clause. -/
theorem claim5_summary_trailing_clause (messages : List Msg) (uid : Str) (topics : List Str)
    (h : messages ≠ []) :
    createConversationSummary messages uid topics
        = summaryBase messages.length ++ topicsClause topics ++ trailingClause messages uid
      ∧ (∀ m, lastOtherMessage messages uid = some m → m.content.contains '?' = false →
          trailingClause messages uid ≠ str ". Question en attente de reponse") := by
  have hlen : messages.length ≠ 0 := by
    simpa [List.length_eq_zero] using h
  constructor
  · rw [createConversationSummary_eq messages uid topics hlen]
    unfold topicsClause trailingClause
    cases hlo : lastOtherMessage messages uid with
    | none => split_ifs <;> simp [List.append_assoc]
    | some m =>
      dsimp only
      split_ifs <;> simp [List.append_assoc]
  · intro m hm hq
    unfold trailingClause
    rw [hm]
    dsimp only
    rw [if_neg (by simpa using hq)]
    split_ifs
    · decide
    · decide

/-- Witness for the amended C5 theorem at a concrete one-message transcript. -/
theorem claim5_summary_trailing_clause_witness :
    createConversationSummary [⟨str "a1", str "Alice", str "On se voit demain"⟩] (str "me")
          (extractTopics [⟨str "a1", str "Alice", str "On se voit demain"⟩])
        = summaryBase ([⟨str "a1", str "Alice", str "On se voit demain"⟩] : List Msg).length
            ++ topicsClause (extractTopics [⟨str "a1", str "Alice", str "On se voit demain"⟩])
            ++ trailingClause [⟨str "a1", str "Alice", str "On se voit demain"⟩] (str "me")
      ∧ (∀ m,
          lastOtherMessage [⟨str "a1", str "Alice", str "On se voit demain"⟩] (str "me") = some m →
          m.content.contains '?' = false →
          trailingClause [⟨str "a1", str "Alice", str "On se voit demain"⟩] (str "me")
            ≠ str ". Question en attente de reponse") :=
  claim5_summary_trailing_clause [⟨str "a1", str "Alice", str "On se voit demain"⟩] (str "me")
    (extractTopics [⟨str "a1", str "Alice", str "On se voit demain"⟩]) (by decide)

/-- Claim C6: for the empty message list, `analyze` raises nothing and
returns the documented default context — the new-conversation summary,
`messageCount = 0`, formality `0.5`, and every enumeration field at its
constructor default (`neutre`, `inconnu`, `debut`, `neutre`, `normal`). -/
theorem claim6_empty_default (uid uname : Str) :
    analyze [] uid uname =
      { tone := Tone.neutre
        relationship := Relationship.inconnu
        topics := []
        conversationSummary := str "Nouvelle conversation"
        messageCount := 0
        lastSpeaker := []
        conversationFlow := ConvFlow.debut
        emotionalTone := Emotion.neutre
        urgency := Urgency.normal
        formality := 1 / 2 } := rfl

/-- Every element of `specDedup l` comes from `l`. -/
theorem mem_specDedup (y : Str) (l : List Str) : y ∈ specDedup l → y ∈ l := by
  induction l using specDedup.induct with
  | case1 => intro hy; rw [specDedup] at hy; exact absurd hy (List.not_mem_nil y)
  | case2 x xs ih =>
    intro hy
    rw [specDedup] at hy
    rcases List.mem_cons.mp hy with hy | hy
    · simp [hy]
    · exact List.mem_cons_of_mem _ (List.mem_of_mem_filter (ih hy))

/-- First-occurrence deduplication yields a duplicate-free list. -/
theorem nodup_specDedup (l : List Str) : (specDedup l).Nodup := by
  induction l using specDedup.induct with
  | case1 => rw [specDedup]; exact List.nodup_nil
  | case2 x xs ih =>
    rw [specDedup]
    refine List.Nodup.cons ?_ ih
    intro hx
    have := List.of_mem_filter (mem_specDedup _ _ hx)
    simp at this

/-- The seen-set formulation of `Set` insertion equals the
specification-shaped first-occurrence deduplication, on the elements not
yet seen. -/
theorem setDedupGo_eq (l : List Str) : ∀ (seen : List Str),
    setDedupGo seen l = specDedup (l.filter (fun x => !(seen.contains x))) := by
  induction l with
  | nil => intro seen; rw [List.filter_nil, specDedup]; rfl
  | cons x xs ih =>
    intro seen
    by_cases hx : seen.contains x
    · rw [setDedupGo, if_pos hx]
      rw [List.filter_cons]
      simp only [hx, Bool.not_true, Bool.false_eq_true, if_false]
      exact ih seen
    · rw [setDedupGo, if_neg hx]
      rw [List.filter_cons]
      have hx' : (!(seen.contains x)) = true := by simpa using hx
      simp only [hx', if_true]
      rw [specDedup, ih (x :: seen)]
      have hpred : ∀ y ∈ xs, (!(x :: seen).contains y) = (y != x && !seen.contains y) := by
        intro y _
        by_cases hyx : y = x
        · subst hyx; simp
        · simp [List.contains_cons, hyx]
      congr 1
      rw [List.filter_filter]
      exact congrArg specDedup (List.filter_congr hpred)

/-- The suggestions collected by the attempt loop are exactly the
successful attempt texts, in attempt order. -/
theorem runAttempts_fst (attempts : List (Except Unit Str)) :
    ∀ (i : Nat) (cfg : AIConfig), (runAttempts attempts i cfg).1 = successes attempts := by
  induction attempts with
  | nil => intro i cfg; rfl
  | cons a rest ih =>
    intro i cfg
    cases a with
    | ok s =>
      show s :: (runAttempts rest (i + 1) _).1 = s :: successes rest
      rw [ih]
    | error e =>
      show (runAttempts rest (i + 1) _).1 = successes rest
      rw [ih]

/-- Claim C7: `generateMultipleSuggestions` returns the distinct successful
suggestion texts in first-occurrence order (the specification-shaped
deduplication of the success list), never contains two identical elements,
swallows per-attempt failures (it is a total function of the per-attempt
outcome list), and returns the empty collection when every attempt fails. -/
theorem claim7_dedup_successes (attempts : List (Except Unit Str)) (cfg : AIConfig) :
    (generateMultipleSuggestions attempts cfg).1 = specDedup (successes attempts)
      ∧ (generateMultipleSuggestions attempts cfg).1.Nodup
      ∧ (successes attempts = [] → (generateMultipleSuggestions attempts cfg).1 = []) := by
  have h1 : (generateMultipleSuggestions attempts cfg).1 = specDedup (successes attempts) := by
    show setDedup (runAttempts attempts 0 cfg).1 = _
    rw [runAttempts_fst]
    show setDedupGo [] (successes attempts) = _
    rw [setDedupGo_eq]
    congr 1
    simp
  refine ⟨h1, ?_, ?_⟩
  · rw [h1]; exact nodup_specDedup _
  · intro h0
    rw [h1, h0, specDedup]

/-- Witness for the C7 theorem: two failing attempts yield the empty
collection. -/
theorem claim7_dedup_successes_witness :
    (generateMultipleSuggestions [Except.error (), Except.error ()]
        ⟨str "mixtral-8x7b-32768", 300, 7 / 10⟩).1 = [] :=
  (claim7_dedup_successes [Except.error (), Except.error ()]
    ⟨str "mixtral-8x7b-32768", 300, 7 / 10⟩).2.2 rfl

/-- The attempt loop never changes the non-temperature configuration
fields, whatever the attempt outcomes. -/
theorem runAttempts_frame (attempts : List (Except Unit Str)) :
    ∀ (i : Nat) (cfg : AIConfig),
      (runAttempts attempts i cfg).2.model = cfg.model
        ∧ (runAttempts attempts i cfg).2.maxTokens = cfg.maxTokens := by
  induction attempts with
  | nil => intro i cfg; exact ⟨rfl, rfl⟩
  | cons a rest ih =>
    intro i cfg
    cases a with
    | ok s => exact ih (i + 1) cfg
    | error e =>
      exact ih (i + 1) { cfg with temperature := min 1 (cfg.temperature + (i : ℚ) * (1 / 10)) }

/-- Claim C10: in the loop of `generateMultipleSuggestions` the shared
`config.ai.temperature` is restored only on success — a failing attempt `i`
leaves the raised value `min 1 (previous + i * 0.1)` in the shared config,
and the remaining attempts run from that raised state (the compounding is
the recursion on the raised config); a successful attempt runs the rest
from the restored config; all other config fields are unchanged by every
attempt. -/
theorem claim10_temperature_restore_on_success_only
    (rest attempts : List (Except Unit Str)) (s : Str) (i : Nat) (cfg : AIConfig) :
    runAttempts (Except.error () :: rest) i cfg
        = runAttempts rest (i + 1)
            { cfg with temperature := min 1 (cfg.temperature + (i : ℚ) * (1 / 10)) }
      ∧ runAttempts (Except.ok s :: rest) i cfg
          = (s :: (runAttempts rest (i + 1) cfg).1, (runAttempts rest (i + 1) cfg).2)
      ∧ (runAttempts attempts i cfg).2.model = cfg.model
      ∧ (runAttempts attempts i cfg).2.maxTokens = cfg.maxTokens
      ∧ (generateMultipleSuggestions attempts cfg).2 = (runAttempts attempts 0 cfg).2 :=
  ⟨rfl, rfl, (runAttempts_frame attempts i cfg).1, (runAttempts_frame attempts i cfg).2, rfl⟩

/-- Claim C8: above eight messages the structured context block is exactly
the count-based summary of all earlier messages followed by the last six
messages rendered verbatim with the `[MOI]`/name prefix rule; with at most
eight messages every message is rendered verbatim and no summary line
appears; the rendered string is the lines joined by newlines. -/
theorem claim8_structured_context_truncation (messages : List Msg) (uid uname : Str) :
    (8 < messages.length →
      ∃ pre suf, messages = pre ++ suf ∧ suf.length = 6
          ∧ buildStructuredContextLines messages uid uname
              = summaryBlock pre uid ++ renderNumbered suf uid uname)
      ∧ (messages ≠ [] → messages.length ≤ 8 →
          buildStructuredContextLines messages uid uname = renderNumbered messages uid uname)
      ∧ (messages ≠ [] →
          buildStructuredContext messages uid uname
            = List.intercalate (str "\n") (buildStructuredContextLines messages uid uname)) := by
  refine ⟨?_, ?_, ?_⟩
  · intro hlen
    refine ⟨messages.take (messages.length - 6), messages.drop (messages.length - 6), ?_, ?_, ?_⟩
    · exact (List.take_append_drop _ _).symm
    · rw [List.length_drop]; omega
    · unfold buildStructuredContextLines
      rw [if_pos hlen]
  · intro hne hle
    unfold buildStructuredContextLines
    rw [if_neg (by omega)]
  · intro hne
    unfold buildStructuredContext
    rw [if_neg (by simpa [List.isEmpty_iff] using hne)]

/-- Witness for the C8 theorem at a nine-message transcript: the rendered
block is the summary of the first three messages plus the last six
verbatim. -/
theorem claim8_structured_context_truncation_witness :
    ∃ pre suf,
      ([⟨str "u1", str "Moi", str "m1"⟩, ⟨str "a1", str "Alice", str "m2"⟩,
        ⟨str "u1", str "Moi", str "m3"⟩, ⟨str "a1", str "Alice", str "m4"⟩,
        ⟨str "u1", str "Moi", str "m5"⟩, ⟨str "a1", str "Alice", str "m6"⟩,
        ⟨str "u1", str "Moi", str "m7"⟩, ⟨str "a1", str "Alice", str "m8"⟩,
        ⟨str "u1", str "Moi", str "m9"⟩] : List Msg) = pre ++ suf
      ∧ suf.length = 6
      ∧ buildStructuredContextLines
          [⟨str "u1", str "Moi", str "m1"⟩, ⟨str "a1", str "Alice", str "m2"⟩,
           ⟨str "u1", str "Moi", str "m3"⟩, ⟨str "a1", str "Alice", str "m4"⟩,
           ⟨str "u1", str "Moi", str "m5"⟩, ⟨str "a1", str "Alice", str "m6"⟩,
           ⟨str "u1", str "Moi", str "m7"⟩, ⟨str "a1", str "Alice", str "m8"⟩,
           ⟨str "u1", str "Moi", str "m9"⟩] (str "u1") (str "Moi")
          = summaryBlock pre (str "u1") ++ renderNumbered suf (str "u1") (str "Moi") :=
  (claim8_structured_context_truncation
    [⟨str "u1", str "Moi", str "m1"⟩, ⟨str "a1", str "Alice", str "m2"⟩,
     ⟨str "u1", str "Moi", str "m3"⟩, ⟨str "a1", str "Alice", str "m4"⟩,
     ⟨str "u1", str "Moi", str "m5"⟩, ⟨str "a1", str "Alice", str "m6"⟩,
     ⟨str "u1", str "Moi", str "m7"⟩, ⟨str "a1", str "Alice", str "m8"⟩,
     ⟨str "u1", str "Moi", str "m9"⟩] (str "u1") (str "Moi")).1 (by decide)

/-- Mapping messages to well-formed ones fails as soon as some entry holds
a non-string content. -/
theorem toMsgList_none (msgs : List MsgJ) (hm : ∃ m ∈ msgs, m.content = none) :
    toMsgList msgs = none := by
  induction msgs with
  | nil =>
    rcases hm with ⟨m, hmem, _⟩
    exact absurd hmem (List.not_mem_nil m)
  | cons a rest ih =>
    rcases hm with ⟨m, hmem, hc⟩
    rcases List.mem_cons.mp hmem with rfl | hmem'
    · rw [toMsgList]
      simp [toMsg, hc]
    · have hrest := ih ⟨m, hmem', hc⟩
      rw [toMsgList, hrest]
      cases toMsg a <;> rfl

/-- Claim C9: `analyze` at the JavaScript level is a total function — a
null or empty message list takes the default branch with the
new-conversation summary, and a transcript containing a non-string content
(on which `toLowerCase` throws inside the first sub-signal) is caught and
answered with the all-defaults `ConversationAnalysis` instead of a
propagated error. -/
theorem claim9_analyze_never_throws (messages : Option (List MsgJ)) (uid uname : Str) :
    (messages = none →
        analyzeJS messages uid uname = { conversationSummary := str "Nouvelle conversation" })
      ∧ (messages = some [] →
        analyzeJS messages uid uname = { conversationSummary := str "Nouvelle conversation" })
      ∧ (∀ msgs, messages = some msgs → (∃ m ∈ msgs, m.content = none) →
          analyzeJS messages uid uname = ({} : ConversationAnalysis)) := by
  refine ⟨?_, ?_, ?_⟩
  · rintro rfl; rfl
  · rintro rfl; rfl
  · rintro msgs rfl hm
    unfold analyzeJS
    rcases msgs with _ | ⟨a, rest⟩
    · rcases hm with ⟨m, hmem, _⟩
      exact absurd hmem (List.not_mem_nil m)
    · dsimp only
      rw [if_neg (by simp)]
      rw [toMsgList_none _ hm]

/-- Witness for the C9 theorem: a one-message transcript with a non-string
content yields the all-defaults analysis. -/
theorem claim9_analyze_never_throws_witness :
    analyzeJS (some [⟨str "a1", str "Alice", none⟩]) (str "u1") (str "Moi")
      = ({} : ConversationAnalysis) :=
  (claim9_analyze_never_throws (some [⟨str "a1", str "Alice", none⟩]) (str "u1")
      (str "Moi")).2.2
    [⟨str "a1", str "Alice", none⟩] rfl ⟨⟨str "a1", str "Alice", none⟩, by simp, rfl⟩
